import Mathlib

/-!
# Verification of the ExSeOS-HLS variable-binding / wiring-resolution core

Shallow embedding of the repository's core modules:

* `exseos/types/Option.py`   → `EOption`
* `exseos/types/Result.py`   → `Result`, `merge`, `merge_all`, `MergeStrategies`
* `exseos/types/Variable.py` → `Variable`, `VariableSet`
* `exseos/types/util.py`     → `common_t`, `common`
* `exseos/workflow/stage/Stage.py`  → `StageArg`, `atov`, `process_stage_io`, `StageInst`
* `exseos/workflow/wiring/Wiring.py`→ `WiredStageVariable`, `WiredStageIo`, `Wire`,
  `WireBinding`, `find_binding_path`, `Wiring`
* `exseos/workflow/Workflow.py`     → `Workflow`, `Workflow.run` (instrumented with
  the list of invoked stage indices)
* the concrete `MakeBase` / `RaiseToPower` stages of
  `test/workflow/test_Workflow.py`, used by the end-to-end pipeline property.

Python exceptions are modelled explicitly: a function that can raise returns
`Except Exn _`; returning `.error e` models an exception propagating to the
caller.  Machine-level concerns (stack traces attached by `StackTraced`) are
not observable by any property below and are dropped: warnings and errors are
carried as plain `Exn` values, matching the `(type, args)` equivalence used by
`ComparableError`.
-/

set_option autoImplicit false

namespace ExSeOS

/-- The closed universe of Python runtime types appearing in the verified
scenarios.  All three are direct subclasses of `object` and of nothing else. -/
inductive PyType where
  | int
  | str
  | noneType
  deriving DecidableEq

/-- The closed universe of Python values flowing through variables in the
verified scenarios. -/
inductive Val where
  | vInt (n : Int)
  | vStr (s : String)
  | vNone
  deriving DecidableEq

/-- Python's `type(x)` on the modelled value universe. -/
def Val.typeOf : Val → PyType
  | .vInt _ => .int
  | .vStr _ => .str
  | .vNone => .noneType

/-- Embeds `issubclass(a, b)` on the modelled (flat) type universe:
`int`, `str` and `NoneType` are unrelated, so subclassing is equality.
(The `bool <: int` special case of Python never arises: `bool` is outside
the modelled universe.) -/
def pySubclass (a b : PyType) : Bool := a = b

/-- A `Variable` (`exseos/types/Variable.py`).  The source has two concrete
classes `BoundVariable` / `UnboundVariable` over the abstract `Variable`;
the embedding is one structure with an `isBound` discriminant.  `boundVal`
is the payload `BoundVariable.__val` and is meaningful only when
`isBound = true`. -/
structure Variable where
  name : String
  isBound : Bool
  boundVal : Val
  varType : Option PyType
  varTypeInferred : Bool
  desc : Option String
  default : Option Val
  deriving DecidableEq

/-- `Variable.val`: `BoundVariable.val` is `Some(self.__val)`;
`UnboundVariable.val` is `self.default`. -/
def Variable.val (v : Variable) : Option Val :=
  if v.isBound then some v.boundVal else v.default

/-- The diagnostics taxonomy.  Each constructor corresponds to an exception
class of the source, carrying its distinguishing constructor arguments
(`ComparableError` compares diagnostics by type and args, so this is the
right notion of identity).  `emptyValueError` does not exist anywhere in the
source; it is the name the specification uses for the error raised by
`Nothing.val` and is included only so that the specification's statement can
be compared with the code's actual behaviour.  `userError` stands for an
arbitrary exception raised by user stage code. -/
inductive Exn where
  | lookupError (path : String) (note : String)
  | keyError (msg : String)
  | attributeError (msg : String)
  | typeError (msg : String)
  | valueError (msg : String)
  | unboundVariableError (varName : String) (note : String)
  | ambiguousVariableError (name : String) (candidates : List Variable) (note : String)
  | noCommonTypeError (types : List PyType)
  | broadCommonTypeWarning (types : List PyType)
  | emptyValueError (msg : String)
  | userError (tag : Nat)
  deriving DecidableEq

/-- `Result` (`exseos/types/Result.py`): `Okay(val)`, `Warn(warnings, val)`,
`Fail(errors, warnings)`. -/
inductive Result (γ : Type) where
  | okay (val : γ)
  | warn (warnings : List Exn) (val : γ)
  | fail (errors : List Exn) (warnings : List Exn)
  deriving DecidableEq

namespace Result

variable {γ δ : Type}

def is_okay : Result γ → Bool
  | .okay _ => true
  | _ => false

def is_warn : Result γ → Bool
  | .warn _ _ => true
  | _ => false

def is_fail : Result γ → Bool
  | .fail _ _ => true
  | _ => false

/-- The value carried by an `Okay` or `Warn` (in the source, `Result.val`,
which raises `TypeError` on a `Fail`). -/
def val? : Result γ → Option γ
  | .okay v => some v
  | .warn _ v => some v
  | .fail _ _ => none

/-- `val?` with a default, for call sites where the source only evaluates
`.val` after having established the result is not a `Fail`. -/
def valD (r : Result γ) (d : γ) : γ := (r.val?).getD d

/-- The warnings carried by a result; an `Okay` carries none (the source's
`Okay.warnings` accessor raises, and `merge` substitutes `[]` for it). -/
def warnList : Result γ → List Exn
  | .okay _ => []
  | .warn ws _ => ws
  | .fail _ ws => ws

/-- The errors carried by a result; only a `Fail` carries any. -/
def errList : Result γ → List Exn
  | .fail es _ => es
  | _ => []

/-- Severity under `Okay < Warn < Fail` (specification §4.2 / glossary). -/
def severity : Result γ → Nat
  | .okay _ => 0
  | .warn _ _ => 1
  | .fail _ _ => 2

/-- `Result.map`: applies `f` to the value of an `Okay`/`Warn`; a `Fail`
passes through unchanged. -/
def map (r : Result γ) (f : γ → δ) : Result δ :=
  match r with
  | .okay v => .okay (f v)
  | .warn ws v => .warn ws (f v)
  | .fail es ws => .fail es ws

/-- `Result.map` where the Python mapping function may itself raise: the
exception propagates out of `map` (the source's `map` does not catch it). -/
def mapE (r : Result γ) (f : γ → Except Exn δ) : Except Exn (Result δ) :=
  match r with
  | .okay v => (f v).map .okay
  | .warn ws v => (f v).map (.warn ws)
  | .fail es ws => .ok (.fail es ws)

end Result

/-- `MergeStrategies.KEEP_FIRST`: `val` is taken from the first object. -/
def mergeKeepFirst {γ : Type} (a _b : γ) : γ := a

/-- `MergeStrategies.KEEP_LAST`: `val` is taken from the last object. -/
def mergeKeepLast {γ : Type} (_a b : γ) : γ := b

/-- `merge(a, b, fn)` (`Result.py` lines 535-569).  The source branches on
`a.is_okay and b.is_okay`, then `(not a.is_fail) and (not b.is_fail)`, then
the `Fail` case; warnings are included via `warnings_traced if not is_okay
else []` and errors via `errors_traced if is_fail else []`. -/
def merge {γ : Type} (a b : Result γ) (fn : γ → γ → γ) : Result γ :=
  match a, b with
  | .okay va, .okay vb => .okay (fn va vb)
  | .okay va, .warn wb vb => .warn ([] ++ wb) (fn va vb)
  | .warn wa va, .okay vb => .warn (wa ++ []) (fn va vb)
  | .warn wa va, .warn wb vb => .warn (wa ++ wb) (fn va vb)
  | a, b => .fail (a.errList ++ b.errList) (a.warnList ++ b.warnList)

/-- `merge_all(*args, fn=..., empty=...)` (`Result.py` lines 572-602): an
empty list yields `Okay(empty)`; otherwise the list is folded left with
`merge`, seeded by `merge(Okay(empty), args[0], fn)`.  (The source's
one-element special case coincides with the fold.) -/
def merge_all {γ : Type} (args : List (Result γ)) (fn : γ → γ → γ) (empty : γ) :
    Result γ :=
  match args with
  | [] => .okay empty
  | a :: rest => rest.foldl (fun res r => merge res r fn) (merge (.okay empty) a fn)

end ExSeOS

namespace ExSeOS

/-! ## `exseos/types/Option.py` -/

/-- `Option` of `exseos/types/Option.py`: `Some(a)` or `Nothing()`.
(Named `EOption` because `Option` is taken by Lean's own option type, which
is also used for optional fields elsewhere in this embedding.) -/
inductive EOption (α : Type) where
  | nothing
  | esome (v : α)
  deriving DecidableEq

namespace EOption

variable {α β : Type}

/-- `Option.has_val`. -/
def has_val : EOption α → Bool
  | .nothing => false
  | .esome _ => true

/-- `Option.val`: `Some.val` returns the payload; `Nothing.val` raises
`TypeError("Can't return val from Nothing!")` (`Option.py` lines 120-122). -/
def val : EOption α → Except Exn α
  | .nothing => .error (.typeError "Cant return val from Nothing!")
  | .esome v => .ok v

/-- `Option.map`. -/
def emap : EOption α → (α → β) → EOption β
  | .nothing, _ => .nothing
  | .esome v, f => .esome (f v)

/-- `Option.flat_map`. -/
def flat_map : EOption α → (α → EOption β) → EOption β
  | .nothing, _ => .nothing
  | .esome v, f => f v

end EOption

/-- Modelled from the spec: §4.1 names the failure of `value` on the empty
option an `EmptyValueError`; the source contains no such class, so the
spec-side behaviour is rendered as raising `Exn.emptyValueError`.  Compared
against the source's `EOption.val` to settle the claim. -/
def specEmptyOptionVal (α : Type) : Except Exn α :=
  .error (.emptyValueError "Cant return val from Nothing!")

/-! ## `exseos/types/util.py` -/

/-- `common_t(a, b)` (`util.py` lines 139-185) on the modelled flat type
universe.  The source first checks `issubclass` both ways, then walks
`__bases__` looking for a common ancestor; on the modelled universe every
type's only base is `object`, which the walk explicitly skips, so both
candidate-search passes come up empty and the ancestor search always ends in
`Fail([NoCommonTypeError([a, b])])`. -/
def common_t (a b : PyType) : Result PyType :=
  if pySubclass b a then .okay a
  else if pySubclass a b then .okay b
  else .fail [.noCommonTypeError [a, b]] []

/-- `common(a, b)` = `common_t(type(a), type(b))`. -/
def common (a b : Val) : Result PyType :=
  common_t a.typeOf b.typeOf

/-! ## Variable construction (`exseos/types/Variable.py`) -/

/-- `BoundVariable.__init__` (`Variable.py` lines 147-196): if no explicit
`var_type` is given, the type is inferred from `val` alone (no default), or
from `common(val, default.val)` — the `Okay` and `Warn` outcomes both adopt
the common type as inferred, the `Fail` outcome leaves the type absent. -/
def mkBoundVariable (name : String) (val : Val) (var_type : Option PyType)
    (desc : Option String) (default : Option Val) : Variable :=
  match var_type with
  | some t =>
    { name, isBound := true, boundVal := val, varType := some t,
      varTypeInferred := false, desc, default }
  | none =>
    match default with
    | none =>
      { name, isBound := true, boundVal := val, varType := some val.typeOf,
        varTypeInferred := true, desc, default }
    | some d =>
      match common val d with
      | .okay t =>
        { name, isBound := true, boundVal := val, varType := some t,
          varTypeInferred := true, desc, default }
      | .warn _ t =>
        { name, isBound := true, boundVal := val, varType := some t,
          varTypeInferred := true, desc, default }
      | .fail _ _ =>
        { name, isBound := true, boundVal := val, varType := none,
          varTypeInferred := false, desc, default }

/-- `UnboundVariable.__init__` (`Variable.py` lines 269-295): with no
explicit `var_type`, the type is inferred from the default when present. -/
def mkUnboundVariable (name : String) (var_type : Option PyType)
    (desc : Option String) (default : Option Val) : Variable :=
  match var_type with
  | some t =>
    { name, isBound := false, boundVal := .vNone, varType := some t,
      varTypeInferred := false, desc, default }
  | none =>
    match default with
    | some d =>
      { name, isBound := false, boundVal := .vNone, varType := some d.typeOf,
        varTypeInferred := true, desc, default }
    | none =>
      { name, isBound := false, boundVal := .vNone, varType := none,
        varTypeInferred := false, desc, default }

/-- `Variable.bind(val)`: both concrete classes build
`BoundVariable(self.name, val, self.var_type, self.desc, self.default)`. -/
def Variable.bind (v : Variable) (x : Val) : Variable :=
  mkBoundVariable v.name x v.varType v.desc v.default

/-! ## `VariableSet` (`exseos/types/Variable.py` lines 473-656) -/

/-- One insertion into a Python `dict` built from pairs: a pair whose key is
already present overwrites that key's value in place; a new key is appended. -/
def pyDictStep (acc : List (String × Variable)) (p : String × Variable) :
    List (String × Variable) :=
  if acc.any (fun q => q.1 = p.1) then
    acc.map (fun q => if q.1 = p.1 then p else q)
  else acc ++ [p]

/-- Python `dict(pairs)` insertion semantics: keys appear in order of their
first occurrence, each mapped to the value of the *last* pair carrying that
key. -/
def pyDict (pairs : List (String × Variable)) : List (String × Variable) :=
  pairs.foldl pyDictStep []

/-- First-match association lookup (Python `d[k]` on the `pyDict` model,
whose keys are unique). -/
def assocFind (l : List (String × Variable)) (k : String) : Option Variable :=
  (l.find? (fun q => q.1 = k)).map (fun q => q.2)

/-- A `VariableSet`: the name-keyed dictionary plus the construction status. -/
structure VariableSet where
  vars : List (String × Variable)
  status : Result Unit
  deriving DecidableEq

/-- The duplicate buckets computed by `VariableSet.__init__`: one bucket per
index `dex` whose variable's name recurs in `vars[dex:]` more than once;
each bucket collects every variable of that name. -/
def dupBuckets (vars : List Variable) : List (String × List Variable) :=
  (vars.enum.filterMap fun p =>
    if 1 < ((vars.drop p.1).countP (fun vr => vr.name = p.2.name)) then
      some (p.2.name, vars.filter (fun vr => vr.name = p.2.name))
    else none)

/-- The `AmbiguousVariableError` recorded for one duplicate bucket. -/
def ambOf (b : String × List Variable) : Exn :=
  .ambiguousVariableError b.1 b.2 "(while constructing a VariableSet)"

/-- `VariableSet.__init__` (`Variable.py` lines 502-528): builds the
name-keyed `dict` and, when duplicates were collapsed, folds a
`Warn([AmbiguousVariableError(...)], None)` into the status (via `<<=`,
i.e. `merge` with `KEEP_FIRST`) for every duplicate bucket. -/
def VariableSet.make (vars : List Variable) : VariableSet :=
  let var_pairs := vars.map (fun v => (v.name, v))
  let var_dict := pyDict var_pairs
  let status :=
    if var_dict.length < var_pairs.length then
      (dupBuckets vars).foldl
        (fun st b => merge st (.warn [ambOf b] ()) mergeKeepFirst)
        (.okay ())
    else (.okay () : Result Unit)
  { vars := var_dict, status }

/-- `VariableSet.__check_one` (`Variable.py` lines 549-575). -/
def VariableSet.check_one (s : VariableSet) (v : String) : Result Unit :=
  match assocFind s.vars v with
  | some vr =>
    if vr.val ≠ none then .okay ()
    else .fail [.unboundVariableError vr.name
      "(while retrieving a Variable from a VariableSet)"] []
  | none => .fail [.attributeError ("No variable named " ++ v)] []

/-- `VariableSet.check(*args)`: `merge_all` of the individual checks with the
default `KEEP_LAST` strategy and `empty = None`. -/
def VariableSet.check (s : VariableSet) (args : List String) : Result Unit :=
  merge_all (args.map s.check_one) mergeKeepLast ()

/-- `VariableSet.check_all()`: `check` over all dictionary keys. -/
def VariableSet.check_all (s : VariableSet) : Result Unit :=
  s.check (s.vars.map (fun q => q.1))

/-- `VariableSet.get_var(name)` (`Variable.py` lines 605-623): raises
`UnboundVariableError` when the variable has no value and `AttributeError`
when it is absent. -/
def VariableSet.get_var (s : VariableSet) (name : String) : Except Exn Val :=
  match assocFind s.vars name with
  | some vr =>
    match vr.val with
    | none => .error (.unboundVariableError vr.name
        "(while retrieving a Variable from a VariableSet)")
    | some x => .ok x
  | none => .error (.attributeError ("No variable named " ++ name))

/-! ## `exseos/workflow/stage/Stage.py` -/

/-- A constructor argument of a `Stage` (or an element of the `*args` of
`given` / `output_to`): a literal name string, a `Variable` object, or any
other Python object. -/
inductive StageArg where
  | str (s : String)
  | var (v : Variable)
  | other
  deriving DecidableEq

/-- Embeds the check `type(a) is Variable` inside `__atov`
(`Stage.py` lines 52-58).  `Variable` is an abstract base class (it has
abstract methods), so no runtime object's concrete class is ever `Variable`
itself — instances are of `BoundVariable` / `UnboundVariable` — and the
check is false for every argument. -/
def typeIsExactlyVariable (_a : StageArg) : Bool := false

/-- `__atov` inside `_process_stage_io` (`Stage.py` lines 52-58): a string
becomes `Some(UnboundVariable(a))`; an argument whose concrete class is
exactly `Variable` would be passed through; everything else (including every
actual `BoundVariable`/`UnboundVariable` instance) yields `Nothing()`. -/
def atov (a : StageArg) : Option Variable :=
  match a with
  | .str s => some (mkUnboundVariable s none none none)
  | _ => if typeIsExactlyVariable a then
      (match a with | .var v => some v | _ => none)
    else none

/-- `_process_stage_io(dex, i, args, kwargs)` (`Stage.py` lines 38-65):
positional match by index first, then keyword match by the declared
variable's name, else `Nothing()`. -/
def process_stage_io (dex : Nat) (i : Variable) (args : List StageArg)
    (kwargs : List (String × StageArg)) : Option Variable :=
  if args ≠ [] ∧ dex < args.length then
    atov (args.getD dex .other)
  else if kwargs ≠ [] ∧ (kwargs.any (fun q => q.1 = i.name)) then
    atov (((kwargs.find? (fun q => q.1 = i.name)).map (fun q => q.2)).getD .other)
  else none

/-- The runtime values a `Result` can carry inside the workflow execution
loop: Python `None` (the loop accumulator's value), a stage's output tuple
of variables, or a resolved `VariableSet`. -/
inductive RVal where
  | pyNone
  | vars (vs : List Variable)
  | varSet (vs : VariableSet)
  deriving DecidableEq

def RVal.asVarSet : RVal → VariableSet
  | .varSet vs => vs
  | _ => { vars := [], status := .okay () }

def RVal.asVars : RVal → List Variable
  | .vars vs => vs
  | _ => []

/-- A constructed `Stage` instance: the declared shapes, the input/output
bindings computed by `Stage.__init__` via `_process_stage_io`, the
implicit-binding flag, and the stage's `run` behaviour (`run` receives the
resolved `VariableSet` and returns a `Result` whose value is the output
tuple; a behaviour returning `.error e` models user code raising `e`). -/
structure StageInst where
  input_vars : List Variable
  output_vars : List Variable
  input_bindings : List (Variable × Option Variable)
  output_bindings : List (Variable × Option Variable)
  is_implicit : Bool
  behavior : VariableSet → Except Exn (Result RVal)

/-- `Stage.__init__` (`Stage.py` lines 81-119): pairs every declared input
with its matched argument and every declared output with its matched `_to`
argument. -/
def mkStage (input_vars output_vars : List Variable)
    (behavior : VariableSet → Except Exn (Result RVal))
    (args : List StageArg) (kwargs : List (String × StageArg))
    (toArgs : List StageArg) (toKwargs : List (String × StageArg)) : StageInst :=
  { input_vars, output_vars,
    input_bindings :=
      input_vars.enum.map (fun p => (p.2, process_stage_io p.1 p.2 args kwargs)),
    output_bindings :=
      output_vars.enum.map (fun p => (p.2, process_stage_io p.1 p.2 toArgs toKwargs)),
    is_implicit := false,
    behavior }

/-! ## `exseos/workflow/wiring/Wiring.py` -/

/-- `WiredStageVariable`: an internal (local) variable paired with its
optional external (wire) counterpart. -/
structure WiredStageVariable where
  wire_var : Option Variable
  local_var : Variable
  deriving DecidableEq

namespace WiredStageVariable

def has_wire (w : WiredStageVariable) : Bool := w.wire_var.isSome

def wire_name (w : WiredStageVariable) : Option String :=
  w.wire_var.map (fun v => v.name)

def local_name (w : WiredStageVariable) : String := w.local_var.name

/-- `WiredStageVariable.bind(val)`: rebinds both sides. -/
def bindW (w : WiredStageVariable) (x : Val) : WiredStageVariable :=
  { wire_var := w.wire_var.map (fun v => v.bind x),
    local_var := w.local_var.bind x }

/-- `is_bound`: the local variable is bound, or there is a wire variable and
it is bound. -/
def is_bound (w : WiredStageVariable) : Bool :=
  w.local_var.isBound ||
    (match w.wire_var with
     | some wv => wv.isBound
     | none => false)

/-- `has_default`: either side declares a default. -/
def has_default (w : WiredStageVariable) : Bool :=
  w.local_var.default.isSome ||
    (match w.wire_var with
     | some wv => wv.default.isSome
     | none => false)

end WiredStageVariable

/-- `WiredStageIO`: an ordered collection of `WiredStageVariable`s.
(Renamed `WiredStageIo` for Lean.) -/
structure WiredStageIo where
  vars : List WiredStageVariable
  deriving DecidableEq

namespace WiredStageIo

/-- `get_by_wire(name)`: the first element whose wire name is the given
name.  (Call sites in the wiring pass strings, so the `str | Variable`
union collapses to `String`.) -/
def get_by_wire (io : WiredStageIo) (name : String) : Option WiredStageVariable :=
  io.vars.find? (fun v => v.wire_name = some name)

/-- `get_by_local(name)`. -/
def get_by_local (io : WiredStageIo) (name : String) : Option WiredStageVariable :=
  io.vars.find? (fun v => v.local_name = name)

/-- `WiredStageIO.bind(bind_to)` (`Wiring.py` lines 245-262): every element
whose local name matches some variable in `bind_to` is rebound to that
variable's value via `bind_to[dex].val.val` — which raises `TypeError` when
that variable has no value (`Option.val` on `Nothing`). -/
def bindIo (io : WiredStageIo) (bind_to : List Variable) :
    Except Exn WiredStageIo := do
  let vs ← io.vars.mapM (fun v =>
    match bind_to.find? (fun b => b.name = v.local_name) with
    | some b =>
      match b.val with
      | some x => Except.ok (v.bindW x)
      | none => Except.error (.typeError "Cant return val from Nothing!")
    | none => Except.ok v)
  return { vars := vs }

/-- `WiredStageIO.from_input(stage)`. -/
def from_input (s : StageInst) : WiredStageIo :=
  if s.is_implicit then
    { vars := s.input_vars.map (fun v => { wire_var := some v, local_var := v }) }
  else
    { vars := s.input_bindings.map (fun p => { wire_var := p.2, local_var := p.1 }) }

/-- `WiredStageIO.from_output(stage)`. -/
def from_output (s : StageInst) : WiredStageIo :=
  if s.is_implicit then
    { vars := s.output_vars.map (fun v => { wire_var := some v, local_var := v }) }
  else
    { vars := s.output_bindings.map (fun p => { wire_var := p.2, local_var := p.1 }) }

/-- `WiredStageIO.from_global_io(vars)`. -/
def from_global_io (vars : List Variable) : WiredStageIo :=
  { vars := vars.map (fun v => { wire_var := some v, local_var := v }) }

end WiredStageIo

/-- `WireBinding` and its variants (`Wiring.py` lines 88-145). -/
inductive WireBinding where
  | selfBinding
  | linkBinding (link : String)
  | defaultBinding
  | noBinding
  deriving DecidableEq

/-- A `Wire`: a wired variable together with its binding decision. -/
structure Wire where
  var : WiredStageVariable
  binding : WireBinding
  deriving DecidableEq

/-- `"/stage/" + index + "/" + name` as produced by `_find_binding_path`.
Note the singular `stage` — while `_lookup_wire_path` matches on
`"stages"`. -/
def stagePath (i : Nat) (nm : String) : String :=
  "/stage/" ++ toString i ++ "/" ++ nm

/-- `"/inputs/" + name` as produced by `_find_binding_path`. -/
def inputPath (nm : String) : String := "/inputs/" ++ nm

/-- `_find_binding_path(stages, inputs, to_find_wire_name)` (`Wiring.py`
lines 317-331): walk the already-processed stages' output shapes most recent
first; the first match at reversed index `dex` yields the path for original
index `len(stages) - (1 + dex)`; otherwise fall back to the global inputs. -/
def find_binding_path (stages : List WiredStageIo) (inputs : WiredStageIo)
    (nm : String) : Option String :=
  match stages.reverse.findIdx? (fun st => (st.get_by_wire nm).isSome) with
  | some dex => some (stagePath (stages.length - (1 + dex)) nm)
  | none =>
    if (inputs.get_by_wire nm).isSome then some (inputPath nm) else none

/-- The `wires` dictionary built by `Wiring.wire`:
`{"stages": {str(dex): [Wire]}, "outputs": [Wire]}`.  The stage keys are
exactly `"0" .. str(n-1)`, so the inner dict is modelled positionally. -/
structure WiresTable where
  stages : List (List Wire)
  outputs : List Wire
  deriving DecidableEq

/-- The `Wiring` snapshot (`Wiring.py` lines 334-353). -/
structure Wiring where
  inputs : WiredStageIo
  outputs : WiredStageIo
  stages : List WiredStageIo
  wires : WiresTable
  status : Result Unit
  bound_inputs : Option WiredStageIo
  bound_intermediate_outputs : List WiredStageIo

namespace Wiring

/-- `Wiring.bind_inputs(inputs)`: a new snapshot with the concrete global
inputs attached. -/
def bind_inputs (w : Wiring) (inputs : List Variable) : Wiring :=
  { w with bound_inputs := some (WiredStageIo.from_global_io inputs) }

/-- `Wiring.bind_stage(stage_index, stage_outputs)`: appends
`stages[stage_index].bind(stage_outputs)` to the recorded intermediate
outputs (`WiredStageIO.bind` may raise, see `bindIo`). -/
def bind_stage (w : Wiring) (stage_index : Nat) (stage_outputs : List Variable) :
    Except Exn Wiring := do
  let bound ← (w.stages.getD stage_index { vars := [] }).bindIo stage_outputs
  return { w with
    bound_intermediate_outputs := w.bound_intermediate_outputs ++ [bound] }

/-- Embeds Python equality between a `list` and a `str`: the literal
patterns `case "inputs":` / `case "stages":` of `_lookup_wire_path` compare
the *list* `segs = pth.split("/")` against a string, and in Python a list
never equals a string, whatever its contents. -/
def pyListStrEq (_segs : List String) (_s : String) : Bool := false

/-- `Wiring._lookup_wire_path(pth)` (`Wiring.py` lines 427-465).  The
source's `match segs:` uses the string literal patterns `"inputs"` and
`"stages"` against the *list* `segs`, so neither case can ever match (see
`pyListStrEq`) and the wildcard `case _` always returns
`Fail([LookupError(pth)])`.  The two would-be branches are reproduced under
their (always-false) guards: the `"inputs"` branch resolves against the
bound global inputs, the `"stages"` branch against the recorded stage
outputs (where, if it were ever reached, `len(segs) != 3` would already
reject every actually-generated path, which has four `/`-segments due to the
leading slash, and the tuple indexing `bound_intermediate_outputs[stage_index]`
uses the *string* segment as an index, a `TypeError`). -/
def lookup_wire_path (w : Wiring) (pth : String) : Result WiredStageVariable :=
  let segs := pth.splitOn "/"
  if pyListStrEq segs "inputs" then
    if segs.length ≠ 2 then .fail [.lookupError pth "(no such input)"] []
    else
      let wire_name := segs.getD 1 ""
      match w.bound_inputs with
      | some bi =>
        match bi.get_by_wire wire_name with
        | some matched => .okay matched
        | none => .fail [.lookupError pth "(no such input)"] []
      | none => .fail [.lookupError pth "(no such input)"] []
  else if pyListStrEq segs "stages" then
    if segs.length ≠ 3 then .fail [.lookupError pth "(no such stage variable)"] []
    else .fail [.typeError "tuple indices must be integers or slices, not str"] []
  else
    .fail [.lookupError pth ""] []

/-- `Wiring._resolve(wire)` (`Wiring.py` lines 467-476): `SelfBinding`,
`DefaultBinding` and `NoBinding` pass the stored variable through;
`LinkBinding` goes through the path lookup.  (The `case _` arm of the source
is unreachable: `WireBinding` has exactly these four variants.) -/
def resolve (w : Wiring) (wire : Wire) : Result WiredStageVariable :=
  match wire.binding with
  | .selfBinding | .defaultBinding | .noBinding => .okay wire.var
  | .linkBinding path => w.lookup_wire_path path

end Wiring

/-- The value domain of the `merge_all(..., fn=MergeStrategies.APPEND)`
calls in `get_stage_inputs` / `get_outputs`: the seed is Python `None`, the
individual results carry `WiredStageVariable`s, and `APPEND` builds lists. -/
inductive IoVal where
  | pyNone
  | wsv (w : WiredStageVariable)
  | list (xs : List IoVal)

/-- `MergeStrategies.APPEND` on the `IoVal` domain: `a[:]` succeeds exactly
when `a` is a list (appending `b` to a copy); for any non-list `a`
(`None` or a `WiredStageVariable` object) the slice raises and the fallback
builds `[a, b]`. -/
def appendIo (a b : IoVal) : IoVal :=
  match a with
  | .list xs => .list (xs ++ [b])
  | _ => .list [a, b]

/-- The comprehension `[v.local_var for v in wsvars]` over an `IoVal`:
iterating a non-list raises `TypeError`; an element that is not a
`WiredStageVariable` (in practice the leading `None` contributed by the
`merge_all` seed) raises `AttributeError` at `v.local_var`. -/
def localsOf : IoVal → Except Exn (List Variable)
  | .list xs =>
    xs.mapM (fun x =>
      match x with
      | .wsv w => Except.ok w.local_var
      | _ => Except.error
          (.attributeError "NoneType object has no attribute local_var"))
  | .pyNone => .error (.typeError "NoneType object is not iterable")
  | .wsv _ => .error (.typeError "WiredStageVariable object is not iterable")

/-- `lambda wsvars: [v.local_var for v in wsvars] if wsvars else []` of
`get_stage_inputs`: `None` and the empty list are falsy and yield `[]`;
anything truthy runs the comprehension. -/
def localsOfGuarded : IoVal → Except Exn (List Variable)
  | .pyNone => .ok []
  | .list [] => .ok []
  | v => localsOf v

namespace Wiring

/-- `Wiring.get_stage_inputs(stage_index)` (`Wiring.py` lines 396-412):
resolve every wire of the stage, `merge_all` with the `APPEND` strategy
(seeded, via the default `empty=None`, with Python `None`), extract the
local variables, and build a `VariableSet`.  Only `KeyError` (an unknown
stage index) is caught; the `AttributeError` / `TypeError` that the value
extraction can raise propagates to the caller. -/
def get_stage_inputs (w : Wiring) (stage_index : Nat) :
    Except Exn (Result RVal) :=
  match w.wires.stages[stage_index]? with
  | none => .ok (.fail [.keyError ("Wiring has no stage " ++ toString stage_index)] [])
  | some wireList =>
    let merged := merge_all
      (wireList.map (fun wr => (w.resolve wr).map IoVal.wsv)) appendIo .pyNone
    (merged.mapE localsOfGuarded).map
      (fun r => r.map (fun vars => RVal.varSet (VariableSet.make vars)))

/-- `Wiring.get_outputs()` (`Wiring.py` lines 414-425): same resolution
against the global output wires, but without the truthiness guard on the
merged value and with a catch-all `except Exception as e: return Fail([e])`. -/
def get_outputs (w : Wiring) : Result RVal :=
  let merged := merge_all
    (w.wires.outputs.map (fun wr => (w.resolve wr).map IoVal.wsv)) appendIo .pyNone
  match merged.mapE localsOf with
  | .error e => .fail [e] []
  | .ok r => r.map (fun vars => RVal.varSet (VariableSet.make vars))

/-- `_make_wire_binding(dex, v)` inside `Wiring.wire` (`Wiring.py` lines
491-505): already-bound slots are `SelfBinding`; else a wire-name search
over the *already-processed* stages' outputs (`stage_outputs[:dex]`) and the
global inputs decides a `LinkBinding`; else a declared default decides
`DefaultBinding`; else `NoBinding`. -/
def make_wire_binding (stage_outputs : List WiredStageIo)
    (global_inputs : WiredStageIo) (dex : Nat) (v : WiredStageVariable) :
    WireBinding :=
  if v.is_bound then .selfBinding
  else
    match v.wire_name with
    | some nm =>
      (match find_binding_path (stage_outputs.take dex) global_inputs nm with
       | some p => .linkBinding p
       | none =>
         if v.has_default then .defaultBinding else .noBinding)
    | none =>
      if v.has_default then .defaultBinding else .noBinding

/-- `Wiring.wire(inputs, outputs, stages)` (`Wiring.py` lines 478-520). -/
def wire (inputs outputs : List Variable) (stages : List StageInst) : Wiring :=
  let stage_inputs := stages.map WiredStageIo.from_input
  let stage_outputs := stages.map WiredStageIo.from_output
  let global_inputs := WiredStageIo.from_global_io inputs
  let global_outputs := WiredStageIo.from_global_io outputs
  { inputs := global_inputs,
    outputs := global_outputs,
    stages := stage_outputs,
    wires :=
      { stages := stage_inputs.enum.map (fun p =>
          p.2.vars.map (fun v =>
            { var := v,
              binding := make_wire_binding stage_outputs global_inputs p.1 v })),
        outputs := global_outputs.vars.map (fun o =>
          { var := o,
            binding :=
              make_wire_binding stage_outputs global_inputs stages.length o }) },
    status := .okay (),
    bound_inputs := none,
    bound_intermediate_outputs := [] }

end Wiring

/-! ## `exseos/workflow/Workflow.py` -/

/-- A `Workflow` instance (the `name` and `ui` fields are omitted: the name
is inert and every `ui.display(...)` call's result is discarded by `run`). -/
structure Workflow where
  stages : List StageInst
  inputs : List Variable
  outputs : List Variable
  wiring : Wiring
  status : Result Unit

/-- `Workflow.is_runnable`: `Okay`/`Warn` statuses are runnable, `Fail` is
not. -/
def Workflow.is_runnable (wf : Workflow) : Bool := !wf.status.is_fail

/-- Outcome of one pass of the `for dex, stage in enumerate(self.stages)`
loop body chain in `Workflow.run`. -/
inductive LoopOut where
  | earlyReturn (r : Result RVal)
  | raised (e : Exn)
  | completed (run_result : Result RVal) (wiring : Wiring)

/-- The stage loop of `Workflow.run` (`Workflow.py` lines 183-209),
instrumented with the list of stage indices whose `run` was invoked.  Each
iteration: resolve inputs, fold with `<<=` (merge keep-first), return on
`Fail`; invoke the stage (an exception becomes `run_result << Fail([e])`),
fold the stage result with `<<=`, return on `Fail`; fold the *same* stage
result with `<<=` a second time (source lines 200 and 207 both read
`run_result <<= stage_res`); record the outputs with `bind_stage`. -/
def runLoop (wiring : Wiring) (stages : List (Nat × StageInst))
    (run_result : Result RVal) : LoopOut × List Nat :=
  match stages with
  | [] => (.completed run_result wiring, [])
  | (dex, stage) :: rest =>
    match wiring.get_stage_inputs dex with
    | .error e => (.raised e, [])
    | .ok stage_input_res =>
      let rr1 := merge run_result stage_input_res mergeKeepFirst
      if rr1.is_fail then (.earlyReturn rr1, [])
      else
        match stage.behavior ((stage_input_res.valD .pyNone).asVarSet) with
        | .error e => (.earlyReturn (merge rr1 (.fail [e] []) mergeKeepFirst), [dex])
        | .ok stage_res =>
          let rr2 := merge rr1 stage_res mergeKeepFirst
          if rr2.is_fail then (.earlyReturn rr2, [dex])
          else
            let rr3 := merge rr2 stage_res mergeKeepFirst
            match wiring.bind_stage dex ((stage_res.valD .pyNone).asVars) with
            | .error e => (.raised e, [dex])
            | .ok wiring2 =>
              let next := runLoop wiring2 rest rr3
              (next.1, dex :: next.2)

/-- What `Workflow.run` hands back to its caller: the returned
`MalformedWorkflowError` *object* (source line 175 returns the exception
instead of raising it or wrapping it in a `Result`), an exception that
propagated out of `run`, or a returned `Result`. -/
inductive RunOutcome where
  | malformedObject (status : Result Unit)
  | raised (e : Exn)
  | returned (r : Result RVal)
  deriving DecidableEq

/-- `Workflow.run(inputs)` (`Workflow.py` lines 171-218), instrumented with
the list of invoked stage indices.  After the loop, the final outputs are
resolved and folded in with `<<=`; the returned value is
`run_result.map(lambda _: final_outputs.val)` — the lambda is only invoked
when `run_result` is not `Fail`, in which case `final_outputs` is not `Fail`
either, so its `val` exists. -/
def Workflow.run (wf : Workflow) (inputs : List Variable) :
    RunOutcome × List Nat :=
  if !wf.is_runnable then (.malformedObject wf.status, [])
  else
    let wiring := wf.wiring.bind_inputs inputs
    match runLoop wiring wf.stages.enum (.okay .pyNone) with
    | (.earlyReturn r, tr) => (.returned r, tr)
    | (.raised e, tr) => (.raised e, tr)
    | (.completed rr wiring2, tr) =>
      let final_outputs := wiring2.get_outputs
      let rr2 := merge rr final_outputs mergeKeepFirst
      (.returned (rr2.map (fun _ => final_outputs.valD .pyNone)), tr)

/-! ## The `MakeWorkflow` builder (`Workflow.py` lines 221-404) -/

/-- An element of the `*args` of `given` / `output_to`: a name or a
`Variable`. -/
inductive NameOrVar where
  | nm (s : String)
  | var (v : Variable)

/-- `ensure_from_name` (`Variable.py` lines 659-673): a string becomes an
`UnboundVariable`, a `Variable` passes through (here the check is
`type_check`, i.e. `issubclass`, so actual `Variable` instances do pass,
unlike in `Stage.__atov`). -/
def ensure_from_name : NameOrVar → Variable
  | .nm s => mkUnboundVariable s none none none
  | .var v => v

/-- `_ensure_unique_names(vars)` (`Workflow.py` lines 389-404): keep each
variable iff its name does not appear earlier in the list. -/
def ensure_unique_names (vars : List Variable) : List Variable :=
  (vars.enum.filter
      (fun p => !((vars.take p.1).any (fun vv => vv.name = p.2.name)))).map
    (fun p => p.2)

/-- The `MakeWorkflow` factory state. -/
structure MakeWorkflow where
  stages : List StageInst
  inputs : List Variable
  outputs : List Variable

/-- The empty factory (`MakeWorkflow()`). -/
def MakeWorkflow.empty : MakeWorkflow := { stages := [], inputs := [], outputs := [] }

/-- `MakeWorkflow.given(*args, **kwargs)`: keyword arguments become
defaulted `UnboundVariable`s; the new inputs take precedence over equally
named existing ones. -/
def MakeWorkflow.given (mw : MakeWorkflow) (args : List NameOrVar)
    (kwargs : List (String × Val)) : MakeWorkflow :=
  let arg_vars := args.map ensure_from_name
  let kwarg_vars := kwargs.map (fun p => mkUnboundVariable p.1 none none (some p.2))
  { mw with inputs := ensure_unique_names (kwarg_vars ++ arg_vars ++ mw.inputs) }

/-- `MakeWorkflow.output_to(*args)`. -/
def MakeWorkflow.output_to (mw : MakeWorkflow) (args : List NameOrVar) :
    MakeWorkflow :=
  { mw with outputs := ensure_unique_names (args.map ensure_from_name ++ mw.outputs) }

/-- `MakeWorkflow.from_stages(*args)`. -/
def MakeWorkflow.from_stages (mw : MakeWorkflow) (args : List StageInst) :
    MakeWorkflow :=
  { mw with stages := mw.stages ++ args }

/-- `MakeWorkflow.status`: always `Okay(None)` (`Workflow.py` line 368). -/
def MakeWorkflow.status (_mw : MakeWorkflow) : Result Unit := .okay ()

/-- `MakeWorkflow.__call__()`: wires the workflow; the instance status is
`self.status << wiring.status`. -/
def MakeWorkflow.call (mw : MakeWorkflow) : Workflow :=
  let wiring := Wiring.wire mw.inputs mw.outputs mw.stages
  { stages := mw.stages, inputs := mw.inputs, outputs := mw.outputs,
    wiring := wiring,
    status := merge mw.status wiring.status mergeKeepFirst }

/-! ## The concrete stages of `test/workflow/test_Workflow.py` -/

/-- Python `x ** pow` on the modelled values.  A negative integer exponent
would produce a `float`, which is outside the modelled value universe and
never arises in the verified scenarios (the exponent used is `2`). -/
def pyPow (a b : Val) : Except Exn Val :=
  match a, b with
  | .vInt m, .vInt n =>
    if 0 ≤ n then .ok (.vInt (m ^ n.toNat))
    else .error (.typeError "float results are outside the modeled value universe")
  | _, _ => .error (.typeError "unsupported operand types for **")

/-- Lifts a `Result` whose value is Python `None` into the loop's value
domain (`r.map` is the identity on `Fail`s, which is the only case the
stages below return unchanged). -/
def castRVal (r : Result Unit) : Result RVal := r.map (fun _ => RVal.pyNone)

/-- `RaiseToPower.input_vars` of the test file. -/
def raiseToPowerInputVars : List Variable :=
  [mkUnboundVariable "x" (some .int) (some "Int to raise to pow.") (some (.vInt 0)),
   mkUnboundVariable "pow" (some .int) (some "Power to raise x to.") (some (.vInt 1))]

/-- `RaiseToPower.output_vars` of the test file. -/
def raiseToPowerOutputVars : List Variable :=
  [mkUnboundVariable "result" (some .int) (some "x raised to the pow power.") none]

/-- `RaiseToPower.run`: check all inputs, then bind
`output_vars[0]` to `inputs.x ** inputs.pow`. -/
def raiseToPowerRun (inputs : VariableSet) : Except Exn (Result RVal) := do
  let res := inputs.check_all
  if res.is_fail then return castRVal res
  let x ← inputs.get_var "x"
  let p ← inputs.get_var "pow"
  let v ← pyPow x p
  return .okay (.vars [(raiseToPowerOutputVars.getD 0
    (mkUnboundVariable "result" none none none)).bind v])

/-- `RaiseToPower(*args).to(*toArgs)` as a constructed stage instance. -/
def raiseToPowerStage (args : List StageArg) (toArgs : List StageArg) : StageInst :=
  mkStage raiseToPowerInputVars raiseToPowerOutputVars raiseToPowerRun
    args [] toArgs []

/-- `MakeBase.output_vars` of the test file. -/
def makeBaseOutputVars : List Variable :=
  [mkUnboundVariable "x" (some .int) (some "A random number between 1 and 100") none]

/-- `MakeBase.run`: binds `output_vars[0]` to the constant `71`. -/
def makeBaseRun (_inputs : VariableSet) : Except Exn (Result RVal) :=
  .ok (.okay (.vars [(makeBaseOutputVars.getD 0
    (mkUnboundVariable "x" none none none)).bind (.vInt 71)]))

/-- `MakeBase().to(*toArgs)` as a constructed stage instance. -/
def makeBaseStage (toArgs : List StageArg) : StageInst :=
  mkStage [] makeBaseOutputVars makeBaseRun [] [] toArgs []

/-- The end-to-end pipeline of `test_workflow_integration`:
`MakeWorkflow(...).given("to_pow").from_stages(MakeBase().to("x_wire"),
RaiseToPower("x_wire", "to_pow").to("res_wire")).output_to("res_wire")()`. -/
def c1Workflow : Workflow :=
  ((((MakeWorkflow.empty).given [.nm "to_pow"] []).from_stages
      [makeBaseStage [.str "x_wire"],
       raiseToPowerStage [.str "x_wire", .str "to_pow"] [.str "res_wire"]]).output_to
    [.nm "res_wire"]).call

/-- The global input binding `to_pow = 2` of the integration test. -/
def c1Inputs : List Variable :=
  [mkBoundVariable "to_pow" (.vInt 2) none none none]

/-! ## Further concrete scenarios used by the claims -/

/-- A workflow holding a single `RaiseToPower()` stage constructed with no
arguments: its two input slots have no wire name but do carry declared
defaults, so the build phase assigns them `DefaultBinding`s. -/
def c3Workflow : Workflow :=
  ((MakeWorkflow.empty).from_stages [raiseToPowerStage [] []]).call

/-- The two duplicated variables of the specification's `VariableSet`
example: `Bound("x", 1)` and `Bound("x", 2)`. -/
def bx1 : Variable := mkBoundVariable "x" (.vInt 1) none none none

def bx2 : Variable := mkBoundVariable "x" (.vInt 2) none none none

/-- A stage with no declared inputs or outputs whose `run` returns
`Warn(ws, ())` (its output tuple is empty). -/
def warnStage (ws : List Exn) : StageInst :=
  mkStage [] [] (fun _ => .ok (.warn ws (.vars []))) [] [] [] []

/-- A stage with no declared inputs or outputs whose `run` returns
`Okay(())`. -/
def okayStage : StageInst :=
  mkStage [] [] (fun _ => .ok (.okay (.vars []))) [] [] [] []

/-- A two-stage workflow whose first stage warns with `ws` and whose second
stage succeeds silently. -/
def c10Workflow (ws : List Exn) : Workflow :=
  ((MakeWorkflow.empty).from_stages [warnStage ws, okayStage]).call

/-- A wiring whose stage 0 has a single link-bound wire, so that resolving
stage 0's inputs produces a `Fail` (the path lookup always fails). -/
def wsvA : WiredStageVariable :=
  { wire_var := none, local_var := mkUnboundVariable "a" none none none }

def wireA : Wire := { var := wsvA, binding := .linkBinding "/x" }

def wiringW : Wiring :=
  { inputs := { vars := [] }, outputs := { vars := [] }, stages := [],
    wires := { stages := [[wireA]], outputs := [] },
    status := .okay (), bound_inputs := none, bound_intermediate_outputs := [] }

/-- Whether a stage's output shape exposes the wire name `nm`. -/
def hasWireB (st : WiredStageIo) (nm : String) : Bool := (st.get_by_wire nm).isSome

/-- Producer shape `A -> x` of the specification's precedence example. -/
def ioA : WiredStageIo :=
  { vars := [{ wire_var := some (mkUnboundVariable "x" none none none),
               local_var := mkUnboundVariable "a_out" none none none }] }

/-- Producer shape `B -> x` of the specification's precedence example. -/
def ioB : WiredStageIo :=
  { vars := [{ wire_var := some (mkUnboundVariable "x" none none none),
               local_var := mkUnboundVariable "b_out" none none none }] }

/-! ## Claim C1: the end-to-end two-stage pipeline -/

/-- C1.  The specification (and the repository's own
`test_workflow_integration`) demand that the `MakeBase -> x_wire ;
RaiseToPower(x_wire, to_pow) -> res_wire` pipeline with `to_pow = 2` return
`Okay` binding the result to `71 ** 2 = 5041`.  The code instead returns a
`Fail` carrying two `LookupError`s: `_find_binding_path` emits paths of the
shape `/stage/0/x_wire` and `/inputs/to_pow`, and `_lookup_wire_path`
matches its *list* of path segments against the string literals
`"inputs"` / `"stages"`, which never succeeds, so every `LinkBinding`
resolution fails.  Only stage 0 is ever invoked. -/
theorem c1_end_to_end_run_fails_with_lookup_errors :
    c1Workflow.run c1Inputs =
      (.returned (.fail [.lookupError "/stage/0/x_wire" "",
        .lookupError "/inputs/to_pow" ""] []), [0]) := by
  decide

/-! ## Claim C2: runtime resolution of link bindings -/

/-- C2.  The claim says `_lookup_wire_path` resolves a structurally sound
`/inputs/<name>` or `/stages/<index>/<name>` path to the referenced bound
variable, failing only on malformed paths or not-yet-executed stages.  In
fact it returns `Fail([LookupError(pth)])` for *every* path and every
wiring state — bound or not — because `match segs:` compares the segment
*list* against the string literals `"inputs"` and `"stages"`, which is
always false in Python, so the wildcard case is always taken. -/
theorem c2_lookup_wire_path_always_fails (w : Wiring) (pth : String) :
    w.lookup_wire_path pth = .fail [.lookupError pth ""] [] := by
  simp [Wiring.lookup_wire_path, Wiring.pyListStrEq]

/-- Witness: even on the fully bound wiring of the end-to-end pipeline
(after `bind_inputs` attached `to_pow = 2`), the well-formed global-input
path fails to resolve. -/
theorem c2_witness :
    (c1Workflow.wiring.bind_inputs c1Inputs).lookup_wire_path "/inputs/to_pow"
      = .fail [.lookupError "/inputs/to_pow" ""] [] :=
  c2_lookup_wire_path_always_fails (c1Workflow.wiring.bind_inputs c1Inputs)
    "/inputs/to_pow"

/-! ## Claim C3: `Workflow.run` never raises -/

/-- C3.  The claim (and the source's own `-> Result[...]` annotation,
docstrings and the commented-out catch-all in `get_stage_inputs`) say
`Workflow.run` always returns a `Result` and never raises.  A workflow
whose stage has default-only inputs refutes this: each `DefaultBinding`
resolves to `Okay`, the `merge_all(..., APPEND)` seed puts Python `None` at
the head of the merged list, and the comprehension
`[v.local_var for v in wsvars]` then raises `AttributeError` — which
`get_stage_inputs` does not catch (only `KeyError` is) and which therefore
propagates out of `Workflow.run`. -/
theorem c3_run_raises_attribute_error :
    c3Workflow.run [] =
      (.raised (.attributeError "NoneType object has no attribute local_var"),
        []) := by
  decide

/-! ## Claim C4: duplicate names in a VariableSet -/

/-- C4 counterexample.  The claim says the variable retrievable under a
duplicated name is the *first* occurrence; for
`VariableSet([Bound("x", 1), Bound("x", 2)])` the retained entry is in fact
`Bound("x", 2)` — Python's `dict(pairs)` keeps the *last* value for a
repeated key — and `Bound("x", 2) ≠ Bound("x", 1)`. -/
theorem c4_duplicate_retains_last_not_first :
    assocFind (VariableSet.make [bx1, bx2]).vars "x" = some bx2
    ∧ (VariableSet.make [bx1, bx2]).get_var "x" = .ok (.vInt 2)
    ∧ bx2 ≠ bx1 := by
  refine ⟨by decide, rfl, by decide⟩



/-- Helper: in the overwrite case of a dict insertion, looking the inserted
key up finds the new pair exactly when the key was present. -/
theorem find_map_overwrite (acc : List (String × Variable)) (p : String × Variable) :
    (acc.map (fun q => if q.1 = p.1 then p else q)).find? (fun q => q.1 = p.1)
      = if acc.any (fun q => q.1 = p.1) then some p else none := by
  induction acc with
  | nil => rfl
  | cons a t ih =>
    simp only [List.map_cons, List.find?_cons, List.any_cons]
    by_cases h : a.1 = p.1
    · simp [h]
    · have hd := decide_eq_false h
      rw [if_neg h]
      simp only [hd, Bool.false_or]
      simp [ih]

theorem find_map_overwrite_ne (acc : List (String × Variable))
    (p : String × Variable) (k : String) (hk : k ≠ p.1) :
    (acc.map (fun q => if q.1 = p.1 then p else q)).find? (fun q => q.1 = k)
      = acc.find? (fun q => q.1 = k) := by
  induction acc with
  | nil => rfl
  | cons a t ih =>
    simp only [List.map_cons, List.find?_cons]
    by_cases h : a.1 = p.1
    · have hpk : ¬(p.1 = k) := fun hc => hk hc.symm
      have hak : ¬(a.1 = k) := by rw [h]; exact hpk
      simp [h, hpk, hak, ih]
    · by_cases hak : a.1 = k
      · simp [h, hak, hk]
      · simp [h, hak, ih]

theorem assocFind_pyDictStep (acc : List (String × Variable))
    (p : String × Variable) (k : String) :
    assocFind (pyDictStep acc p) k
      = if p.1 = k then some p.2 else assocFind acc k := by
  unfold pyDictStep assocFind
  by_cases hany : acc.any (fun q => q.1 = p.1)
  · simp only [hany, if_true]
    by_cases hk : p.1 = k
    · subst hk
      rw [find_map_overwrite, hany]
      simp
    · rw [find_map_overwrite_ne acc p k (fun hc => hk hc.symm)]
      simp [hk]
  · simp only [Bool.not_eq_true] at hany
    simp only [hany, Bool.false_eq_true, if_false]
    rw [List.find?_append]
    by_cases hk : p.1 = k
    · subst hk
      have hnone : acc.find? (fun q => q.1 = p.1) = none := by
        rw [List.find?_eq_none]
        intro x hx
        have := (List.any_eq_false.mp hany) x hx
        simpa using this
      simp [hnone, List.find?_cons]
    · have h1 : ([p].find? (fun q => q.1 = k)) = none := by
        simp [List.find?_cons, hk]
      simp [h1, Option.or_none, hk]

theorem assocFind_foldl (pairs : List (String × Variable)) :
    ∀ (acc : List (String × Variable)) (k : String),
      assocFind (pairs.foldl pyDictStep acc) k
        = ((pairs.reverse.find? (fun q => q.1 = k)).map (fun q => q.2)).or
            (assocFind acc k) := by
  induction pairs with
  | nil => intro acc k; simp
  | cons p rest ih =>
    intro acc k
    rw [List.foldl_cons, ih (pyDictStep acc p) k, assocFind_pyDictStep]
    rw [List.reverse_cons, List.find?_append, Option.map_or', Option.or_assoc]
    congr 1
    by_cases hk : p.1 = k
    · simp [List.find?_cons, hk]
    · simp [List.find?_cons, hk]

theorem assocFind_pyDict (pairs : List (String × Variable)) (k : String) :
    assocFind (pyDict pairs) k
      = (pairs.reverse.find? (fun q => q.1 = k)).map (fun q => q.2) := by
  rw [pyDict, assocFind_foldl pairs [] k]
  simp [assocFind]

theorem keys_pyDictStep (acc : List (String × Variable)) (p : String × Variable) :
    (pyDictStep acc p).map (fun q => q.1)
      = if acc.any (fun q => q.1 = p.1) then acc.map (fun q => q.1)
        else acc.map (fun q => q.1) ++ [p.1] := by
  unfold pyDictStep
  by_cases hany : acc.any (fun q => q.1 = p.1)
  · simp only [hany, if_true, List.map_map]
    apply List.map_congr_left
    intro q _
    by_cases hq : q.1 = p.1
    · simp [hq]
    · simp [hq]
  · simp [hany]

theorem keys_nodup_foldl (pairs : List (String × Variable)) :
    ∀ (acc : List (String × Variable)),
      ((acc.map (fun q => q.1)).Nodup) →
      (((pairs.foldl pyDictStep acc).map (fun q => q.1)).Nodup) := by
  induction pairs with
  | nil => intro acc h; simpa using h
  | cons p rest ih =>
    intro acc h
    rw [List.foldl_cons]
    apply ih
    rw [keys_pyDictStep]
    by_cases hany : acc.any (fun q => q.1 = p.1)
    · simpa [hany] using h
    · simp only [hany, Bool.false_eq_true, if_false]
      rw [List.nodup_append]
      refine ⟨h, List.nodup_singleton _, ?_⟩
      intro x hx hx2
      simp at hx2
      subst hx2
      rcases List.mem_map.mp hx with ⟨q, hq, hq2⟩
      have hf : acc.any (fun q => q.1 = p.1) = false := by
        simp only [Bool.not_eq_true] at hany
        exact hany
      have := List.any_eq_false.mp hf q hq
      simp at this
      exact this hq2

theorem keys_subset_foldl (pairs : List (String × Variable)) :
    ∀ (acc : List (String × Variable)) (k : String),
      k ∈ (pairs.foldl pyDictStep acc).map (fun q => q.1) →
      k ∈ acc.map (fun q => q.1) ∨ k ∈ pairs.map (fun q => q.1) := by
  induction pairs with
  | nil => intro acc k h; exact Or.inl (by simpa using h)
  | cons p rest ih =>
    intro acc k h
    rw [List.foldl_cons] at h
    rcases ih (pyDictStep acc p) k h with h1 | h1
    · rw [keys_pyDictStep] at h1
      by_cases hany : acc.any (fun q => q.1 = p.1)
      · rw [if_pos hany] at h1
        exact Or.inl h1
      · rw [if_neg hany] at h1
        rcases List.mem_append.mp h1 with h2 | h2
        · exact Or.inl h2
        · simp at h2
          subst h2
          exact Or.inr (by simp)
    · exact Or.inr (by simp [h1])

theorem pyDict_length_lt (pairs : List (String × Variable))
    (h : ¬ (pairs.map (fun q => q.1)).Nodup) :
    (pyDict pairs).length < pairs.length := by
  have hnod : ((pyDict pairs).map (fun q => q.1)).Nodup :=
    keys_nodup_foldl pairs [] (by simp)
  have hsub : ((pyDict pairs).map (fun q => q.1))
      ⊆ (pairs.map (fun q => q.1)).dedup := by
    intro k hk
    rcases keys_subset_foldl pairs [] k hk with h1 | h1
    · simp at h1
    · exact List.mem_dedup.mpr h1
  have hsp := (List.Nodup.subperm hnod hsub).length_le
  have hsl := List.dedup_sublist (pairs.map (fun q => q.1))
  have hle := hsl.length_le
  rcases Nat.eq_or_lt_of_le hle with heq | hlt
  · exact absurd (hsl.eq_of_length heq ▸ List.nodup_dedup _) h
  · calc (pyDict pairs).length
        = ((pyDict pairs).map (fun q => q.1)).length := by simp
      _ ≤ ((pairs.map (fun q => q.1)).dedup).length := hsp
      _ < (pairs.map (fun q => q.1)).length := hlt
      _ = pairs.length := by simp

theorem statusFold_warn (bs : List (String × List Variable)) :
    ∀ ws : List Exn,
      bs.foldl (fun st b => merge st (.warn [ambOf b] ()) mergeKeepFirst)
          (Result.warn ws ())
        = .warn (ws ++ bs.map ambOf) () := by
  induction bs with
  | nil => intro ws; simp
  | cons b t ih =>
    intro ws
    rw [List.foldl_cons]
    have hm : merge (Result.warn ws ()) (.warn [ambOf b] ()) mergeKeepFirst
        = .warn (ws ++ [ambOf b]) () := rfl
    rw [hm, ih]
    simp

theorem statusFold (bs : List (String × List Variable)) (hne : bs ≠ []) :
    bs.foldl (fun st b => merge st (.warn [ambOf b] ()) mergeKeepFirst)
        (Result.okay ())
      = .warn (bs.map ambOf) () := by
  cases bs with
  | nil => exact absurd rfl hne
  | cons b t =>
    rw [List.foldl_cons]
    have hm : merge (Result.okay ()) (.warn [ambOf b] ()) mergeKeepFirst
        = .warn ([] ++ [ambOf b]) () := rfl
    rw [hm, statusFold_warn]
    simp

theorem countP_drop_findIdx (l : List Variable) (p : Variable → Bool) :
    (l.drop (l.findIdx p)).countP p = l.countP p := by
  induction l with
  | nil => simp
  | cons a t ih =>
    rw [List.findIdx_cons]
    by_cases h : p a
    · simp [h]
    · have hf : p a = false := by
        simp only [Bool.not_eq_true] at h
        exact h
      simp only [hf, cond_false, List.drop_succ_cons]
      rw [ih, List.countP_cons]
      simp [hf]



theorem dupBuckets_mem (vars : List Variable) (nm : String)
    (h : 2 ≤ vars.countP (fun v => v.name = nm)) :
    (nm, vars.filter (fun vr => vr.name = nm)) ∈ dupBuckets vars := by
  have hex : ∃ v ∈ vars, (fun v => decide (v.name = nm)) v := by
    rw [← List.countP_pos_iff]
    omega
  have hlt : vars.findIdx (fun v => decide (v.name = nm)) < vars.length :=
    List.findIdx_lt_length_of_exists hex
  set dex0 := vars.findIdx (fun v => decide (v.name = nm)) with hdex0
  have hname : (vars.get ⟨dex0, hlt⟩).name = nm := by
    have := @List.findIdx_getElem _ (fun v => decide (v.name = nm)) vars hlt
    simpa using this
  have henum : (dex0, vars.get ⟨dex0, hlt⟩) ∈ vars.enum := by
    rw [List.mem_enum_iff_getElem?]
    exact List.getElem?_eq_getElem hlt
  have hcnt : 1 < (vars.drop dex0).countP (fun vr => vr.name = (vars.get ⟨dex0, hlt⟩).name) := by
    rw [hname, hdex0, countP_drop_findIdx]
    omega
  unfold dupBuckets
  rw [List.mem_filterMap]
  refine ⟨(dex0, vars.get ⟨dex0, hlt⟩), henum, ?_⟩
  simp only [hcnt, if_pos]
  rw [hname]

/-- C4 amended.  For every variable list in which some name occurs at least
twice, `VariableSet` construction succeeds with a `Warn` status containing
an `AmbiguousVariableError` for that name, and the variable retrievable
under the name is the *last* occurrence in the input list (Python's
`dict(pairs)` keeps the last value for a repeated key). -/
theorem c4_duplicate_names_warn_and_keep_last (vars : List Variable) (nm : String)
    (h : 2 ≤ vars.countP (fun v => v.name = nm)) :
    (VariableSet.make vars).status.is_warn = true
    ∧ ambOf (nm, vars.filter (fun vr => vr.name = nm))
        ∈ (VariableSet.make vars).status.warnList
    ∧ assocFind (VariableSet.make vars).vars nm
        = vars.reverse.find? (fun v => v.name = nm) := by
  have hlen : (pyDict (vars.map (fun v => (v.name, v)))).length
      < (vars.map (fun v => (v.name, v))).length := by
    apply pyDict_length_lt
    rw [List.map_map]
    intro hnd
    have hc := List.nodup_iff_count_le_one.mp hnd nm
    rw [List.count_eq_countP, List.countP_map] at hc
    have heq : vars.countP
        ((fun s => s == nm) ∘ ((fun q => q.1) ∘ (fun v => (v.name, v))))
        = vars.countP (fun v => v.name = nm) := by
      apply List.countP_congr
      intro v _
      simp
    rw [heq] at hc
    omega
  have hbmem := dupBuckets_mem vars nm h
  have hbne : dupBuckets vars ≠ [] := by
    intro hnil
    rw [hnil] at hbmem
    simp at hbmem
  have hstat : (VariableSet.make vars).status
      = .warn ((dupBuckets vars).map ambOf) () := by
    show (if (pyDict (vars.map (fun v => (v.name, v)))).length
        < (vars.map (fun v => (v.name, v))).length then
          (dupBuckets vars).foldl
            (fun st b => merge st (.warn [ambOf b] ()) mergeKeepFirst) (.okay ())
        else (.okay () : Result Unit))
      = .warn ((dupBuckets vars).map ambOf) ()
    rw [if_pos hlen, statusFold _ hbne]
  refine ⟨by rw [hstat]; rfl, ?_, ?_⟩
  · rw [hstat]
    simp only [Result.warnList]
    exact List.mem_map_of_mem _ hbmem
  · show assocFind (pyDict (vars.map fun v => (v.name, v))) nm = _
    rw [assocFind_pyDict, ← List.map_reverse, List.find?_map, Option.map_map]
    have hf1 : ((fun q => decide (q.1 = nm)) ∘ fun v : Variable => (v.name, v))
        = (fun v : Variable => decide (v.name = nm)) := rfl
    have hf2 : ((fun q : String × Variable => q.2) ∘ fun v : Variable => (v.name, v))
        = (fun v : Variable => v) := rfl
    rw [hf1, hf2]
    simp

/-- Witness for C4 at the specification's own example list. -/
theorem c4_witness :
    (VariableSet.make [bx1, bx2]).status.is_warn = true :=
  (c4_duplicate_names_warn_and_keep_last [bx1, bx2] "x" (by decide)).1

/-! ## Claim C5: build-phase backward search -/

/-- C5.  The build-phase search: (i) when stage `i` is the most recent
producer of the wire name (no later processed stage produces it),
`_find_binding_path` returns exactly `/stage/i/<nm>`; (ii) a binding
computed for the consumer at pipeline index `dex` — which searches only
`stage_outputs[:dex]` — can only name a global input or a stage of strictly
smaller index; (iii) when no processed stage produces the name, the search
falls back to the global inputs; (iv) an unbound slot with a wire name
whose search succeeds receives exactly `LinkBinding` of the found path. -/
theorem c5_backward_most_recent_producer_wins :
    (∀ (stages : List WiredStageIo) (inputs : WiredStageIo) (nm : String)
      (i : Nat) (hi : i < stages.length),
      hasWireB (stages.get ⟨i, hi⟩) nm = true →
      (∀ j (hj : j < stages.length), i < j →
        hasWireB (stages.get ⟨j, hj⟩) nm = false) →
      find_binding_path stages inputs nm = some (stagePath i nm))
    ∧ (∀ (stages : List WiredStageIo) (inputs : WiredStageIo) (nm : String)
        (dex : Nat) (p : String),
        find_binding_path (stages.take dex) inputs nm = some p →
        p = inputPath nm ∨ ∃ i, i < dex ∧ p = stagePath i nm)
    ∧ (∀ (stages : List WiredStageIo) (inputs : WiredStageIo) (nm : String),
        (∀ st ∈ stages, hasWireB st nm = false) →
        (inputs.get_by_wire nm).isSome = true →
        find_binding_path stages inputs nm = some (inputPath nm))
    ∧ (∀ (soutputs : List WiredStageIo) (ginputs : WiredStageIo) (dex : Nat)
        (v : WiredStageVariable) (nm p : String),
        v.is_bound = false → v.wire_name = some nm →
        find_binding_path (soutputs.take dex) ginputs nm = some p →
        Wiring.make_wire_binding soutputs ginputs dex v = .linkBinding p) := by
  refine ⟨?_, ?_, ?_, ?_⟩
  · intro stages inputs nm i hi hmatch hlater
    have hrev : stages.reverse.findIdx? (fun st => (st.get_by_wire nm).isSome)
        = some (stages.length - 1 - i) := by
      rw [List.findIdx?_eq_some_iff_getElem]
      have hlen : stages.length - 1 - i < stages.reverse.length := by
        simp only [List.length_reverse]; omega
      refine ⟨hlen, ?_, ?_⟩
      · rw [List.getElem_reverse]
        have h2 : stages.length - 1 - (stages.length - 1 - i) = i := by omega
        simp only [h2]
        simpa [hasWireB, List.get_eq_getElem] using hmatch
      · intro j hji
        rw [List.getElem_reverse]
        have hj2 : stages.length - 1 - j < stages.length := by
          simp only [List.length_reverse] at *; omega
        have hgt : i < stages.length - 1 - j := by
          simp only [List.length_reverse] at *; omega
        have := hlater (stages.length - 1 - j) hj2 hgt
        simpa [hasWireB, List.get_eq_getElem] using this
    simp only [find_binding_path, hrev]
    have h3 : stages.length - (1 + (stages.length - 1 - i)) = i := by omega
    rw [h3]
  · intro stages inputs nm dex p h
    unfold find_binding_path at h
    revert h
    cases hidx : (stages.take dex).reverse.findIdx?
        (fun st => (st.get_by_wire nm).isSome) with
    | none =>
      intro h
      by_cases hin : (inputs.get_by_wire nm).isSome = true
      · simp only [hin, if_true] at h
        exact Or.inl (Option.some.inj h).symm
      · simp only [hin] at h
        simp at h
    | some dexR =>
      intro h
      simp only [] at h
      right
      have hlt : dexR < (stages.take dex).reverse.length := by
        rw [List.findIdx?_eq_some_iff_getElem] at hidx
        exact hidx.1
      refine ⟨(stages.take dex).length - (1 + dexR), ?_, (Option.some.inj h).symm⟩
      have hle : (stages.take dex).length ≤ dex := by
        simp [List.length_take]
      simp only [List.length_reverse] at hlt
      omega
  · intro stages inputs nm h hin
    have hnone : stages.reverse.findIdx? (fun st => (st.get_by_wire nm).isSome)
        = none := by
      rw [List.findIdx?_eq_none_iff]
      intro st hst
      exact h st (List.mem_reverse.mp hst)
    simp [find_binding_path, hnone, hin]
  · intro soutputs ginputs dex v nm p hbound hwire hfind
    simp [Wiring.make_wire_binding, hbound, hwire, hfind]

/-- Witness for C5: with producers `[A -> x, B -> x]` in that order, a
consumer of wire name `x` resolves to B's output — the path with stage
index 1 — never A's. -/
theorem c5_witness :
    find_binding_path [ioA, ioB] { vars := [] } "x" = some (stagePath 1 "x") := by
  refine c5_backward_most_recent_producer_wins.1 [ioA, ioB] { vars := [] } "x" 1
    (by decide) (by decide) ?_
  intro j hj hgt
  simp at hj
  omega

/-! ## Claim C6: the merge algebra -/

/-- Helper: the `Fail` case of `merge`. -/
theorem merge_fail_cases {γ : Type} (a b : Result γ) (fn : γ → γ → γ)
    (h : a.is_fail = true ∨ b.is_fail = true) :
    merge a b fn = .fail (a.errList ++ b.errList) (a.warnList ++ b.warnList) := by
  cases a <;> cases b <;> simp_all [merge, Result.is_fail]

/-- C6.  `merge(a, b, fn)`: the severity is the maximum of the inputs'
severities under `Okay < Warn < Fail`; the warnings concatenate in call
order (an `Okay` contributing none); if either input is a `Fail` the output
is exactly `Fail` of both errors and both warnings (hence no value); and
when neither is a `Fail`, the output's value is `fn(a.val, b.val)`. -/
theorem c6_merge_severity_diagnostics_value {γ : Type} (a b : Result γ)
    (fn : γ → γ → γ) :
    (merge a b fn).severity = max a.severity b.severity
    ∧ (merge a b fn).warnList = a.warnList ++ b.warnList
    ∧ ((a.is_fail = true ∨ b.is_fail = true) →
        merge a b fn = .fail (a.errList ++ b.errList) (a.warnList ++ b.warnList))
    ∧ (∀ va vb, a.val? = some va → b.val? = some vb →
        (merge a b fn).val? = some (fn va vb)) := by
  refine ⟨?_, ?_, ?_, ?_⟩
  · cases a <;> cases b <;>
      simp [merge, Result.severity, Result.errList, Result.warnList]
  · cases a <;> cases b <;>
      simp [merge, Result.severity, Result.errList, Result.warnList]
  · intro h
    cases a <;> cases b <;> simp_all [merge, Result.is_fail]
  · intro va vb hva hvb
    cases a <;> cases b <;> simp_all [merge, Result.val?]

/-- Witness for C6 at concrete inputs: merging a `Warn` into a `Fail` gives
a `Fail` with the concatenated diagnostics, and merging two `Warn`s
concatenates their warnings around the combined value. -/
theorem c6_witness :
    merge (.warn [.userError 1] (Val.vInt 1)) (.fail [.userError 2] [.userError 3])
        mergeKeepFirst
      = .fail [.userError 2] [.userError 1, .userError 3]
    ∧ (merge (.warn [.userError 4] (Val.vInt 2)) (.warn [.userError 5] (Val.vInt 3))
        mergeKeepFirst).val? = some (Val.vInt 2) := by
  refine ⟨?_, ?_⟩
  · have h := (c6_merge_severity_diagnostics_value
      (.warn [.userError 1] (Val.vInt 1)) (.fail [.userError 2] [.userError 3])
      mergeKeepFirst).2.2.1 (Or.inr rfl)
    simpa using h
  · exact (c6_merge_severity_diagnostics_value
      (.warn [.userError 4] (Val.vInt 2)) (.warn [.userError 5] (Val.vInt 3))
      mergeKeepFirst).2.2.2 (Val.vInt 2) (Val.vInt 3) rfl rfl

/-! ## Claim C7: failure halts the loop, warnings do not -/

/-- C7.  One step of the `Workflow.run` stage loop: (i) if folding the
stage's input resolution into the accumulator yields a `Fail`, the loop
returns that accumulated `Fail` at once and invokes no stage — neither this
one nor any later one (the invocation trace is empty); (ii) otherwise the
stage runs, and if it raises, the loop returns the accumulator merged with
`Fail([e])`, having invoked only this stage; (iii) if the folded stage
result is a `Fail`, the loop returns it, having invoked only this stage;
(iv) if the folded result is not a `Fail` (in particular on any `Warn`),
execution continues with the remaining stages, on the accumulator that has
absorbed the stage result (twice, per source lines 200 and 207). -/
theorem c7_fail_halts_warn_continues
    (wiring : Wiring) (dex : Nat) (st : StageInst) (rest : List (Nat × StageInst))
    (rr r_in : Result RVal)
    (hres : wiring.get_stage_inputs dex = Except.ok r_in) :
    (((merge rr r_in mergeKeepFirst).is_fail = true →
        runLoop wiring ((dex, st) :: rest) rr
          = (.earlyReturn (merge rr r_in mergeKeepFirst), [])))
    ∧ ((merge rr r_in mergeKeepFirst).is_fail = false →
        (∀ e, st.behavior ((r_in.valD .pyNone).asVarSet) = .error e →
          runLoop wiring ((dex, st) :: rest) rr
            = (.earlyReturn (merge (merge rr r_in mergeKeepFirst) (.fail [e] [])
                mergeKeepFirst), [dex]))
        ∧ (∀ sres, st.behavior ((r_in.valD .pyNone).asVarSet) = .ok sres →
            ((merge (merge rr r_in mergeKeepFirst) sres mergeKeepFirst).is_fail
                = true →
              runLoop wiring ((dex, st) :: rest) rr
                = (.earlyReturn (merge (merge rr r_in mergeKeepFirst) sres
                    mergeKeepFirst), [dex]))
            ∧ ((merge (merge rr r_in mergeKeepFirst) sres mergeKeepFirst).is_fail
                  = false →
                ∀ w2, wiring.bind_stage dex ((sres.valD .pyNone).asVars)
                    = Except.ok w2 →
                  runLoop wiring ((dex, st) :: rest) rr
                    = ((runLoop w2 rest (merge (merge (merge rr r_in mergeKeepFirst)
                        sres mergeKeepFirst) sres mergeKeepFirst)).1,
                       dex :: (runLoop w2 rest (merge (merge (merge rr r_in
                        mergeKeepFirst) sres mergeKeepFirst) sres
                        mergeKeepFirst)).2)))) := by
  refine ⟨?_, ?_⟩
  · intro hfail
    simp [runLoop, hres, hfail]
  · intro hok
    refine ⟨?_, ?_⟩
    · intro e hbe
      simp [runLoop, hres, hok, hbe]
    · intro sres hbs
      constructor
      · intro hfail2
        simp [runLoop, hres, hok, hbs, hfail2]
      · intro hok2 w2 hw2
        simp [runLoop, hres, hok, hbs, hok2, hw2]

/-- Witness for C7: on a wiring whose stage 0 resolution fails, the loop
returns the accumulated `Fail` with an empty invocation trace. -/
theorem c7_witness :
    runLoop wiringW [(0, okayStage)] (.okay .pyNone)
      = (.earlyReturn (.fail [.lookupError "/x" ""] []), []) := by
  have h := (c7_fail_halts_warn_continues wiringW 0 okayStage [] (.okay .pyNone)
    (.fail [.lookupError "/x" ""] []) rfl).1 (by decide)
  simpa using h

/-! ## Claim C8: stage construction bindings -/

/-- C8.  The claim (and `Stage.__init__`'s docstring, "All arguments should
be either `Variable`'s or strings") says a caller-supplied `Variable`
instance binds the slot.  In the code, `__atov` tests `type(a) is Variable`
— but `Variable` is an abstract base class, so no instance's concrete class
is `Variable` itself, the branch is dead, and a `Variable` argument falls
through to `Nothing()`.  A string argument does bind, and a slot with no
matching argument is `Nothing()`. -/
theorem c8_stage_io_binding_drops_variable_instances :
    atov (.var (mkUnboundVariable "my_x" none none none)) = none
    ∧ atov (.str "my_x") = some (mkUnboundVariable "my_x" none none none)
    ∧ process_stage_io 0
        (mkUnboundVariable "x" (some .int) (some "Int to raise to pow.")
          (some (.vInt 0)))
        [.var (mkUnboundVariable "my_x" none none none), .str "my_pow"] []
      = none
    ∧ process_stage_io 1
        (mkUnboundVariable "pow" (some .int) (some "Power to raise x to.")
          (some (.vInt 1)))
        [.var (mkUnboundVariable "my_x" none none none), .str "my_pow"] []
      = some (mkUnboundVariable "my_pow" none none none)
    ∧ process_stage_io 0
        (mkUnboundVariable "x" (some .int) none (some (.vInt 0))) [] []
      = none := by
  refine ⟨by decide, by decide, by decide, by decide, by decide⟩

/-! ## Claim C9: the empty option's value -/

/-- C9 counterexample.  The claim says `Nothing.val` fails with an
`EmptyValueError`; the source raises
`TypeError("Can't return val from Nothing!")` (and no `EmptyValueError`
class exists anywhere in the repository). -/
theorem c9_nothing_val_is_typeerror_not_emptyvalueerror :
    EOption.val (.nothing : EOption Val) ≠ specEmptyOptionVal Val
    ∧ EOption.val (.nothing : EOption Val)
      = .error (.typeError "Cant return val from Nothing!") := by
  refine ⟨?_, rfl⟩
  intro h
  simp [EOption.val, specEmptyOptionVal] at h

/-- C9 amended.  Accessing the empty option's value always fails — with a
`TypeError` — and never returns a value. -/
theorem c9_nothing_val_never_returns_value :
    (∀ (α : Type) (v : α), EOption.val (.nothing : EOption α) ≠ .ok v)
    ∧ (∀ (α : Type), EOption.val (.nothing : EOption α)
        = .error (.typeError "Cant return val from Nothing!")) := by
  refine ⟨?_, fun _ => rfl⟩
  intro α v h
  simp [EOption.val] at h

/-- Witness for C9 at a concrete type and value. -/
theorem c9_witness :
    EOption.val (.nothing : EOption Val) ≠ .ok (Val.vInt 0) :=
  c9_nothing_val_never_returns_value.1 Val (Val.vInt 0)

/-! ## Claim C10: warnings of a warning stage are folded twice -/

/-- C10.  `Workflow.run` folds a stage's result into the accumulator at
both line 200 and line 207 (`run_result <<= stage_res` twice), so when a
stage returns `Warn(ws, v)` and execution continues, `ws` appears twice, in
order, in the warnings of the finally returned `Result`.  Here the
two-stage workflow whose first stage warns `ws` ends with a `Fail` (the
final `get_outputs` of a workflow with no declared outputs iterates `None`
and catches the `TypeError`) whose warnings are exactly `ws ++ ws`; the
second stage was still invoked. -/
theorem c10_warn_stage_warnings_duplicated (ws : List Exn) :
    (c10Workflow ws).run [] =
      (.returned (.fail [.typeError "NoneType object is not iterable"]
        (ws ++ ws)), [0, 1]) := by
  have h : (c10Workflow ws).run [] =
      (.returned (.fail ([] ++ [.typeError "NoneType object is not iterable"])
        (((((ws ++ ws) ++ []) ++ []) ++ []) ++ [])), [0, 1]) := rfl
  simpa using h

/-- Witness for C10 with two concrete distinct warnings. -/
theorem c10_witness :
    (c10Workflow [.userError 8, .userError 9]).run [] =
      (.returned (.fail [.typeError "NoneType object is not iterable"]
        [.userError 8, .userError 9, .userError 8, .userError 9]), [0, 1]) :=
  c10_warn_stage_warnings_duplicated [.userError 8, .userError 9]

end ExSeOS
